import Mathlib

/-
Verification of the beacon schema-validation core
(src/include/beacon/abstract_schema_validator.h) against its design
specification. The JSON document model, the validation-result carrier,
the validator variants (lambda predicates, AND, OR, object, array), the
fluent field builder and the top-level schema validation are shallowly
embedded below; each embedded definition mirrors one C++ entity of the
header and keeps its name where Lean allows it.
-/

namespace Beacon

/-- Document values: the shape of nlohmann::json as consumed by the
validators (object, array, string, signed integer, boolean, null). -/
inductive Json where
  | null : Json
  | bool (b : Bool) : Json
  | int (n : Int) : Json
  | str (s : String) : Json
  | arr (elems : List Json) : Json
  | obj (fields : List (String × Json)) : Json

/-- Mirrors nlohmann json::is_object(). -/
def Json.is_object : Json → Bool
  | .obj _ => true
  | _ => false

/-- Mirrors nlohmann json::is_array(). -/
def Json.is_array : Json → Bool
  | .arr _ => true
  | _ => false

/-- Mirrors nlohmann json::is_string(). -/
def Json.is_string : Json → Bool
  | .str _ => true
  | _ => false

/-- Mirrors nlohmann json::is_number_integer(). -/
def Json.is_number_integer : Json → Bool
  | .int _ => true
  | _ => false

/-- Mirrors nlohmann json::is_boolean(). -/
def Json.is_boolean : Json → Bool
  | .bool _ => true
  | _ => false

/-- Mirrors json::contains(key) on objects (false on any other shape). -/
def Json.contains : Json → String → Bool
  | .obj fs, k => fs.any (fun p => p.1 == k)
  | _, _ => false

/-- Mirrors json::at(key) on objects; named atKey because at is a Lean
keyword. Only ever called when the key is present. -/
def Json.atKey : Json → String → Json
  | .obj fs, k => ((fs.find? (fun p => p.1 == k)).map Prod.snd).getD .null
  | _, _ => .null

/-- Mirrors json::size() on arrays (element count). -/
def Json.size : Json → Nat
  | .arr es => es.length
  | _ => 0

/-- Mirrors json::get of std::string; only ever called when is_string. -/
def Json.getStr : Json → String
  | .str s => s
  | _ => ""

/-- Mirrors json::get of the stored signed integer value (int64). -/
def Json.getInt : Json → Int
  | .int n => n
  | _ => 0

/-- ValidationResult of the header: success flag, error message, path. -/
structure ValidationResult where
  success : Bool
  error_message : String
  path : String
deriving Repr, DecidableEq

/-- Factory ValidationResult::ok(). -/
def ValidationResult.ok : ValidationResult := ⟨true, "", ""⟩

/-- Factory ValidationResult::fail(msg, path). -/
def ValidationResult.fail (msg : String) (path : String) : ValidationResult :=
  ⟨false, msg, path⟩

/-- ValidationResult::prepend_path: on success return self; on failure
set the path to pre, then "." when both pre and the old path are
non-empty, then the old path. -/
def ValidationResult.prepend_path (r : ValidationResult) (pre : String) : ValidationResult :=
  if r.success then r
  else
    let np := if pre ≠ "" ∧ r.path ≠ "" then pre ++ "." else pre
    ⟨false, r.error_message, np ++ r.path⟩

/-- The closed set of ValidatableField implementations in the header:
LambdaValidator (an arbitrary predicate function, as produced by the
make_* helpers), AndValidator, OrValidator, ObjectValidator and
ArrayValidator. Child lists keep declaration order. -/
inductive Validator where
  | lam (f : Json → ValidationResult) : Validator
  | andV (children : List Validator) : Validator
  | orV (children : List Validator) : Validator
  | objectV (schema : List (String × Validator)) (required_fields : List String) : Validator
  | arrayV (element : Validator) (min_size max_size : Option Nat) : Validator

/-- The error-message joining loop of OrValidator::validate: messages
separated by "; " with no trailing separator. -/
def joinSemi : List String → String
  | [] => ""
  | [e] => e
  | e :: es => e ++ "; " ++ joinSemi es

/-- The required-fields loop of ObjectValidator::validate: the first
absent required field produces the failure. -/
def checkRequired (v : Json) : List String → Option ValidationResult
  | [] => none
  | r :: rs =>
    if v.contains r then checkRequired v rs
    else some (ValidationResult.fail "Required field not found" "")

/-- The minimum-size check of ArrayValidator::validate. -/
def minSizeFail (mn : Option Nat) (size : Nat) : Option ValidationResult :=
  match mn with
  | some m =>
    if size < m then some (ValidationResult.fail ("Array size < " ++ toString m) "") else none
  | none => none

/-- The maximum-size check of ArrayValidator::validate. -/
def maxSizeFail (mx : Option Nat) (size : Nat) : Option ValidationResult :=
  match mx with
  | some m =>
    if size > m then some (ValidationResult.fail ("Array size > " ++ toString m) "") else none
  | none => none

mutual

/-- Dispatch of ValidatableField::validate over the variants. The
object and array arms inline the bodies of ObjectValidator::validate
and ArrayValidator::validate. -/
def validate : Validator → Json → ValidationResult
  | .lam f, v => f v
  | .andV cs, v => validateAnd cs v
  | .orV cs, v => validateOr cs v []
  | .objectV sch req, v =>
    if v.is_object then
      match checkRequired v req with
      | some r => r
      | none => validateObjFields sch v
    else ValidationResult.fail "Not an object" ""
  | .arrayV e mn mx, v =>
    match v with
    | .arr elems =>
      match minSizeFail mn elems.length with
      | some r => r
      | none =>
        match maxSizeFail mx elems.length with
        | some r => r
        | none => validateElems e elems 0
    | _ => ValidationResult.fail "Not an array" ""

/-- The loop of AndValidator::validate: first failure is returned
verbatim, success when every child succeeds. -/
def validateAnd : List Validator → Json → ValidationResult
  | [], _ => ValidationResult.ok
  | c :: cs, v =>
    let r := validate c v
    if r.success then validateAnd cs v else r

/-- The loop of OrValidator::validate with its error accumulator:
success on the first succeeding child, otherwise the joined aggregate
failure with empty path. -/
def validateOr : List Validator → Json → List String → ValidationResult
  | [], _, errs => ValidationResult.fail ("None matched. Errors: " ++ joinSemi errs) ""
  | c :: cs, v, errs =>
    let r := validate c v
    if r.success then ValidationResult.ok
    else validateOr cs v (errs ++ [r.error_message])

/-- The per-field loop of ObjectValidator::validate: absent fields are
skipped, a child failure is returned with the field name prepended. -/
def validateObjFields : List (String × Validator) → Json → ValidationResult
  | [], _ => ValidationResult.ok
  | (f, c) :: rest, v =>
    if v.contains f then
      let r := validate c (v.atKey f)
      if r.success then validateObjFields rest v else r.prepend_path f
    else validateObjFields rest v

/-- The element loop of ArrayValidator::validate: the first failing
element is returned with the bracketed index prepended. -/
def validateElems (e : Validator) : List Json → Nat → ValidationResult
  | [], _ => ValidationResult.ok
  | x :: xs, i =>
    let r := validate e x
    if r.success then validateElems e xs (i + 1)
    else r.prepend_path ("[" ++ toString i ++ "]")

end

/-- The implicit conversion performed by val.get of C++ int inside
make_min_integer and make_max_integer: the stored 64-bit document
integer is converted to a signed 32-bit int, i.e. reduced modulo 2^32
into the interval from -2^31 to 2^31 - 1 (twos-complement wrap, the
behaviour of static_cast on every mainstream implementation and the
defined behaviour since C++20). -/
def toInt32 (n : Int) : Int := (n + 2147483648) % 4294967296 - 2147483648

/-- FieldBuilder::make_is_string. -/
def make_is_string : Validator :=
  .lam (fun val =>
    if val.is_string then ValidationResult.ok
    else ValidationResult.fail "Not a string" "")

/-- FieldBuilder::make_non_empty_string. -/
def make_non_empty_string : Validator :=
  .lam (fun val =>
    if val.is_string then
      if val.getStr = "" then ValidationResult.fail "Empty string" ""
      else ValidationResult.ok
    else ValidationResult.fail "Not a string" "")

/-- FieldBuilder::make_is_integer. -/
def make_is_integer : Validator :=
  .lam (fun val =>
    if val.is_number_integer then ValidationResult.ok
    else ValidationResult.fail "Not an integer" "")

/-- FieldBuilder::make_is_boolean. -/
def make_is_boolean : Validator :=
  .lam (fun val =>
    if val.is_boolean then ValidationResult.ok
    else ValidationResult.fail "Not a boolean" "")

/-- FieldBuilder::make_is_array. -/
def make_is_array : Validator :=
  .lam (fun val =>
    if val.is_array then ValidationResult.ok
    else ValidationResult.fail "Not an array" "")

/-- FieldBuilder::make_is_object. -/
def make_is_object : Validator :=
  .lam (fun val =>
    if val.is_object then ValidationResult.ok
    else ValidationResult.fail "Not an object" "")

/-- FieldBuilder::make_min_length (string byte length or array size). -/
def make_min_length (min_len : Nat) : Validator :=
  .lam (fun val =>
    if val.is_string then
      if val.getStr.utf8ByteSize < min_len then
        ValidationResult.fail ("String length < " ++ toString min_len) ""
      else ValidationResult.ok
    else if val.is_array then
      if val.size < min_len then
        ValidationResult.fail ("Array size < " ++ toString min_len) ""
      else ValidationResult.ok
    else ValidationResult.fail "Value has no length" "")

/-- FieldBuilder::make_max_length (string byte length or array size). -/
def make_max_length (max_len : Nat) : Validator :=
  .lam (fun val =>
    if val.is_string then
      if val.getStr.utf8ByteSize > max_len then
        ValidationResult.fail ("String length > " ++ toString max_len) ""
      else ValidationResult.ok
    else if val.is_array then
      if val.size > max_len then
        ValidationResult.fail ("Array size > " ++ toString max_len) ""
      else ValidationResult.ok
    else ValidationResult.fail "Value has no length" "")

/-- FieldBuilder::make_min_integer: the stored integer is read through
val.get of C++ int, hence the toInt32 conversion, then compared to the
bound. -/
def make_min_integer (min_val : Int) : Validator :=
  .lam (fun val =>
    if val.is_number_integer then
      if toInt32 val.getInt < min_val then
        ValidationResult.fail ("Integer < " ++ toString min_val) ""
      else ValidationResult.ok
    else ValidationResult.fail "Not an integer" "")

/-- FieldBuilder::make_max_integer: same toInt32 conversion, upper
bound. -/
def make_max_integer (max_val : Int) : Validator :=
  .lam (fun val =>
    if val.is_number_integer then
      if toInt32 val.getInt > max_val then
        ValidationResult.fail ("Integer > " ++ toString max_val) ""
      else ValidationResult.ok
    else ValidationResult.fail "Not an integer" "")

/-- Oracle for the std::regex engine used by make_regex: compileError
models the std::regex constructor (some e when construction throws
std::regex_error with message e, none when the pattern compiles) and
fullMatch models std::regex_match of the compiled pattern against the
whole subject string (anchored over its entire length). The validators
are proved correct for every oracle. -/
structure RegexOracle where
  compileError : String → Option String
  fullMatch : String → String → Bool

/-- FieldBuilder::make_regex: the pattern is captured at construction
time and compiled only inside the returned validator, inside a
try/catch whose catch arm returns a failure. -/
def make_regex (O : RegexOracle) (pattern : String) : Validator :=
  .lam (fun val =>
    if val.is_string then
      match O.compileError pattern with
      | some e => ValidationResult.fail ("Invalid regex: " ++ e) ""
      | none =>
        if O.fullMatch pattern val.getStr then ValidationResult.ok
        else ValidationResult.fail ("Does not match regex: " ++ pattern) ""
    else ValidationResult.fail "Not a string for regex" "")

/-- FieldRequirement of AbstractSchemaValidator. -/
inductive FieldRequirement where
  | Required : FieldRequirement
  | Optional : FieldRequirement
deriving Repr, DecidableEq

/-- FieldSchemaEntry of AbstractSchemaValidator. -/
structure FieldSchemaEntry where
  validator : Validator
  requirement : FieldRequirement

/-- The schema_ member of AbstractSchemaValidator: an association list
standing for the unordered_map, iterated in list order. -/
abbrev Schema := List (String × FieldSchemaEntry)

/-- AbstractSchemaValidator::add_field_schema. The C++ body calls
unordered_map::emplace, which inserts only when the key is not already
present and otherwise leaves the map unchanged. -/
def add_field_schema (s : Schema) (name : String) (v : Validator)
    (r : FieldRequirement) : Schema :=
  if s.any (fun p => p.1 == name) then s else s ++ [(name, ⟨v, r⟩)]

/-- FieldBuilder state: field name, the required_ flag (true when the
builder is fresh, mirroring the C++ default initializer), and the
accumulated validators in declaration order. -/
structure FieldBuilder where
  field_name : String
  required_ : Bool
  validators_ : List Validator

/-- AbstractSchemaValidator::field(name): a fresh builder, required by
default, with no validators. -/
def field (name : String) : FieldBuilder := ⟨name, true, []⟩

/-- FieldBuilder::required. -/
def FieldBuilder.required (b : FieldBuilder) : FieldBuilder :=
  ⟨b.field_name, true, b.validators_⟩

/-- FieldBuilder::optional. -/
def FieldBuilder.optional (b : FieldBuilder) : FieldBuilder :=
  ⟨b.field_name, false, b.validators_⟩

/-- FieldBuilder::validator: push one validator. -/
def FieldBuilder.validator (b : FieldBuilder) (v : Validator) : FieldBuilder :=
  ⟨b.field_name, b.required_, b.validators_ ++ [v]⟩

/-- FieldBuilder::done, acting on the parent schema it finalizes into:
zero accumulated validators install an always-ok lambda, exactly one is
installed directly, two or more are wrapped in an AndValidator; the
entry goes through add_field_schema with the requirement derived from
the required_ flag. -/
def FieldBuilder.done (b : FieldBuilder) (parent : Schema) : Schema :=
  let req := if b.required_ then FieldRequirement.Required else FieldRequirement.Optional
  match b.validators_ with
  | [] => add_field_schema parent b.field_name (.lam (fun _ => ValidationResult.ok)) req
  | [v] => add_field_schema parent b.field_name v req
  | vs => add_field_schema parent b.field_name (.andV vs) req

/-- The per-field loop of AbstractSchemaValidator::validate. -/
def schemaValidateFields : Schema → Json → ValidationResult
  | [], _ => ValidationResult.ok
  | (name, entry) :: rest, j =>
    if j.contains name then
      let r := validate entry.validator (j.atKey name)
      if r.success then schemaValidateFields rest j else r.prepend_path name
    else
      match entry.requirement with
      | .Required =>
        ValidationResult.fail ("Missing required field \x27" ++ name ++ "\x27") ""
      | .Optional => schemaValidateFields rest j

/-- AbstractSchemaValidator::validate: root-shape check, then the
per-field loop. -/
def schemaValidate (s : Schema) (j : Json) : ValidationResult :=
  if j.is_object then schemaValidateFields s j
  else ValidationResult.fail "Root is not an object" ""

/-- A trivial concrete regex oracle (every pattern compiles, a string
matches exactly when it equals the pattern) used to instantiate the
oracle-generic statements on concrete inputs. -/
def regexOracleConst : RegexOracle := ⟨fun _ => none, fun p s => p == s⟩

/-! Helper lemmas shared by the claim theorems. -/

theorem prepend_path_success (r : ValidationResult) (p : String) :
    (r.prepend_path p).success = r.success := by
  by_cases h : r.success <;> simp [ValidationResult.prepend_path, h]

theorem validate_lam (f : Json → ValidationResult) (v : Json) :
    validate (Validator.lam f) v = f v := by
  simp [validate]

theorem validate_andV (cs : List Validator) (v : Json) :
    validate (Validator.andV cs) v = validateAnd cs v := by
  simp [validate]

theorem validate_orV (cs : List Validator) (v : Json) :
    validate (Validator.orV cs) v = validateOr cs v [] := by
  simp [validate]

theorem validateAnd_success_iff (cs : List Validator) (v : Json) :
    (validateAnd cs v).success = true ↔ ∀ c ∈ cs, (validate c v).success = true := by
  induction cs with
  | nil => simp [validateAnd, ValidationResult.ok]
  | cons c cs ih =>
    simp only [validateAnd]
    by_cases h : (validate c v).success = true
    · simp [h, ih]
    · simp [h]

theorem validateAnd_first_fail (cs1 cs2 : List Validator) (c : Validator) (v : Json)
    (hc : (validate c v).success = false) :
    (∀ x ∈ cs1, (validate x v).success = true) →
    validateAnd (cs1 ++ c :: cs2) v = validate c v := by
  induction cs1 with
  | nil => intro _; simp [validateAnd, hc]
  | cons a as ih =>
    intro h1
    have ha : (validate a v).success = true := h1 a (by simp)
    simp only [List.cons_append, validateAnd, ha, if_true]
    exact ih (fun x hx => h1 x (by simp [hx]))

theorem validateOr_all_fail (cs : List Validator) (v : Json) (errs : List String)
    (h : ∀ c ∈ cs, (validate c v).success = false) :
    validateOr cs v errs =
      ValidationResult.fail
        ("None matched. Errors: " ++
          joinSemi (errs ++ cs.map (fun c => (validate c v).error_message))) "" := by
  induction cs generalizing errs with
  | nil => simp [validateOr]
  | cons c cs ih =>
    have hc : (validate c v).success = false := h c (by simp)
    simp only [validateOr, hc]
    rw [if_neg (by simp)]
    rw [ih (errs ++ [(validate c v).error_message]) (fun x hx => h x (by simp [hx]))]
    simp

theorem validateOr_first_success (cs1 cs2 : List Validator) (c : Validator) (v : Json)
    (errs : List String) (hc : (validate c v).success = true) :
    (∀ x ∈ cs1, (validate x v).success = false) →
    validateOr (cs1 ++ c :: cs2) v errs = ValidationResult.ok := by
  induction cs1 generalizing errs with
  | nil => intro _; simp [validateOr, hc]
  | cons a as ih =>
    intro h1
    have ha : (validate a v).success = false := h1 a (by simp)
    simp only [List.cons_append, validateOr, ha]
    rw [if_neg (by simp)]
    exact ih _ (fun x hx => h1 x (by simp [hx]))

theorem checkRequired_none (v : Json) (req : List String) :
    (∀ r ∈ req, v.contains r = true) → checkRequired v req = none := by
  induction req with
  | nil => intro _; simp [checkRequired]
  | cons r rs ih =>
    intro h
    simp only [checkRequired, h r (by simp), if_true]
    exact ih (fun x hx => h x (by simp [hx]))

theorem checkRequired_missing (v : Json) (req : List String) :
    (∃ r ∈ req, v.contains r = false) →
    checkRequired v req = some (ValidationResult.fail "Required field not found" "") := by
  induction req with
  | nil => intro h; simp at h
  | cons r rs ih =>
    intro h
    by_cases hr : v.contains r = true
    · simp only [checkRequired, hr, if_true]
      apply ih
      rcases h with ⟨x, hx, hxc⟩
      rcases List.mem_cons.mp hx with rfl | hmem
      · simp [hr] at hxc
      · exact ⟨x, hmem, hxc⟩
    · simp [checkRequired, hr]

theorem objectV_not_object (sch : List (String × Validator)) (req : List String)
    (v : Json) (h : v.is_object = false) :
    validate (Validator.objectV sch req) v = ValidationResult.fail "Not an object" "" := by
  simp [validate, h]

theorem objectV_missing_required (sch : List (String × Validator)) (req : List String)
    (v : Json) (hobj : v.is_object = true) (h : ∃ r ∈ req, v.contains r = false) :
    validate (Validator.objectV sch req) v =
      ValidationResult.fail "Required field not found" "" := by
  simp [validate, hobj, checkRequired_missing v req h]

theorem objectV_all_required (sch : List (String × Validator)) (req : List String)
    (v : Json) (hobj : v.is_object = true) (h : ∀ r ∈ req, v.contains r = true) :
    validate (Validator.objectV sch req) v = validateObjFields sch v := by
  simp [validate, hobj, checkRequired_none v req h]

theorem validateObjFields_success_iff (sch : List (String × Validator)) (v : Json) :
    (validateObjFields sch v).success = true ↔
      ∀ p ∈ sch, v.contains p.1 = true → (validate p.2 (v.atKey p.1)).success = true := by
  induction sch with
  | nil => simp [validateObjFields, ValidationResult.ok]
  | cons p rest ih =>
    obtain ⟨f, c⟩ := p
    simp only [validateObjFields]
    by_cases hf : v.contains f = true
    · by_cases hr : (validate c (v.atKey f)).success = true
      · simp [hf, hr, ih]
      · simp [hf, hr, prepend_path_success]
    · have hf2 : v.contains f = false := by simpa using hf
      simp [hf2, ih]

theorem validateElems_success_iff (e : Validator) (es : List Json) (i : Nat) :
    (validateElems e es i).success = true ↔ ∀ x ∈ es, (validate e x).success = true := by
  induction es generalizing i with
  | nil => simp [validateElems, ValidationResult.ok]
  | cons x xs ih =>
    simp only [validateElems]
    by_cases hx : (validate e x).success = true
    · simp [hx, ih]
    · simp [hx, prepend_path_success]

theorem validateElems_first_fail (e : Validator) (es1 es2 : List Json) (x : Json) (i : Nat)
    (hx : (validate e x).success = false) :
    (∀ y ∈ es1, (validate e y).success = true) →
    validateElems e (es1 ++ x :: es2) i =
      (validate e x).prepend_path ("[" ++ toString (i + es1.length) ++ "]") := by
  induction es1 generalizing i with
  | nil => intro _; simp [validateElems, hx]
  | cons a as ih =>
    intro h1
    have ha : (validate e a).success = true := h1 a (by simp)
    simp only [List.cons_append, validateElems, ha, if_true]
    rw [ih (i + 1) (fun y hy => h1 y (by simp [hy]))]
    have harith : i + 1 + as.length = i + (a :: as).length := by
      simp [List.length_cons]; omega
    rw [harith]

theorem arrayV_not_array (e : Validator) (mn mx : Option Nat) (v : Json)
    (h : v.is_array = false) :
    validate (Validator.arrayV e mn mx) v = ValidationResult.fail "Not an array" "" := by
  cases v <;> simp_all [validate, Json.is_array]

theorem arrayV_min_fail (e : Validator) (mx : Option Nat) (elems : List Json) (m : Nat)
    (h : elems.length < m) :
    validate (Validator.arrayV e (some m) mx) (Json.arr elems) =
      ValidationResult.fail ("Array size < " ++ toString m) "" := by
  simp [validate, minSizeFail, h]

theorem arrayV_max_fail (e : Validator) (mn mx : Option Nat) (elems : List Json) (M : Nat)
    (hmn : ∀ m, mn = some m → ¬elems.length < m) (hM : mx = some M)
    (h : elems.length > M) :
    validate (Validator.arrayV e mn mx) (Json.arr elems) =
      ValidationResult.fail ("Array size > " ++ toString M) "" := by
  subst hM
  cases mn with
  | none => simp [validate, minSizeFail, maxSizeFail, h]
  | some m =>
    have hm := hmn m rfl
    simp [validate, minSizeFail, maxSizeFail, h, hm]

theorem arrayV_bounds_ok (e : Validator) (mn mx : Option Nat) (elems : List Json)
    (hmn : ∀ m, mn = some m → ¬elems.length < m)
    (hmx : ∀ M, mx = some M → ¬elems.length > M) :
    validate (Validator.arrayV e mn mx) (Json.arr elems) = validateElems e elems 0 := by
  cases mn with
  | none =>
    cases mx with
    | none => simp [validate, minSizeFail, maxSizeFail]
    | some M => simp [validate, minSizeFail, maxSizeFail, hmx M rfl]
  | some m =>
    cases mx with
    | none => simp [validate, minSizeFail, maxSizeFail, hmn m rfl]
    | some M => simp [validate, minSizeFail, maxSizeFail, hmn m rfl, hmx M rfl]

theorem schemaValidateFields_success_iff (s : Schema) (j : Json) :
    (schemaValidateFields s j).success = true ↔
      ∀ p ∈ s,
        (j.contains p.1 = true → (validate p.2.validator (j.atKey p.1)).success = true) ∧
        (j.contains p.1 = false → p.2.requirement = FieldRequirement.Optional) := by
  induction s with
  | nil => simp [schemaValidateFields, ValidationResult.ok]
  | cons p rest ih =>
    obtain ⟨name, entry⟩ := p
    simp only [schemaValidateFields]
    by_cases hc : j.contains name = true
    · by_cases hr : (validate entry.validator (j.atKey name)).success = true
      · simp [hc, hr, ih]
      · simp [hc, hr, prepend_path_success]
    · have hc2 : j.contains name = false := by simpa using hc
      cases hreq : entry.requirement with
      | Required => simp [hc2, hreq, ValidationResult.fail]
      | Optional => simp [hc2, hreq, ih]

theorem toInt32_eq_self (k : Int) (h1 : -2147483648 ≤ k) (h2 : k < 2147483648) :
    toInt32 k = k := by
  unfold toInt32
  omega

/-! Claim theorems. -/

/-- C6: prepend_path returns a successful result unchanged; on a
failure it keeps the message and sets the path to the given prefix
concatenated with "." and the existing path, omitting the separator
when either side is the empty string. -/
theorem prepend_path_spec (r : ValidationResult) (p : String) :
    (r.success = true → r.prepend_path p = r) ∧
    (r.success = false →
      r.prepend_path p =
        ⟨false, r.error_message,
          if p = "" ∨ r.path = "" then p ++ r.path else p ++ "." ++ r.path⟩) := by
  constructor
  · intro h; simp [ValidationResult.prepend_path, h]
  · intro h
    simp only [ValidationResult.prepend_path, h, Bool.false_eq_true, if_false]
    by_cases hp : p = ""
    · simp [hp]
    · by_cases hq : r.path = ""
      · simp [hp, hq]
      · simp [hp, hq]

/-- Witness for C6 at a concrete failing result and prefix. -/
theorem prepend_path_spec_witness :
    ValidationResult.prepend_path ⟨false, "m", "q"⟩ "f" =
      ⟨false, "m", if "f" = "" ∨ "q" = "" then "f" ++ "q" else "f" ++ "." ++ "q"⟩ :=
  (prepend_path_spec ⟨false, "m", "q"⟩ "f").2 rfl

/-- C10: an AndValidator built with an empty child list succeeds on
every value, while an OrValidator built with an empty child list fails
on every value with message exactly "None matched. Errors: " and empty
path. -/
theorem empty_combinators_spec (v : Json) :
    validate (Validator.andV []) v = ValidationResult.ok ∧
    validate (Validator.orV []) v = ValidationResult.fail "None matched. Errors: " "" := by
  constructor
  · simp [validate, validateAnd]
  · simp [validate, validateOr, joinSemi, ValidationResult.fail]

/-- C5: AndValidator evaluates its children in declaration order,
returns the first child failure verbatim (message and path unchanged,
no path prefix added, later children not evaluated), and succeeds
exactly when every child succeeds. -/
theorem and_validator_spec (cs cs1 cs2 : List Validator) (c : Validator) (v : Json) :
    ((∀ x ∈ cs1, (validate x v).success = true) → (validate c v).success = false →
      validate (Validator.andV (cs1 ++ c :: cs2)) v = validate c v) ∧
    ((validate (Validator.andV cs) v).success = true ↔
      ∀ x ∈ cs, (validate x v).success = true) := by
  constructor
  · intro h1 hc
    rw [validate_andV]
    exact validateAnd_first_fail cs1 cs2 c v hc h1
  · rw [validate_andV]
    exact validateAnd_success_iff cs v

/-- Witness for C5: a conjunction whose single child fails returns that
child result verbatim. -/
theorem and_validator_spec_witness :
    validate (Validator.andV [Validator.lam (fun _ => ValidationResult.fail "x" "")]) Json.null =
      validate (Validator.lam (fun _ => ValidationResult.fail "x" "")) Json.null := by
  have h :=
    (and_validator_spec [] [] []
      (Validator.lam (fun _ => ValidationResult.fail "x" "")) Json.null).1
      (by simp) (by simp [validate, ValidationResult.fail])
  simpa using h

/-- C4: OrValidator returns success as soon as a child succeeds (later
children not evaluated); when every child fails it returns one failure
with empty path whose message is "None matched. Errors: " followed by
the child messages in declaration order joined by "; "; for child
messages "x" and "y" the aggregate message is exactly
"None matched. Errors: x; y". -/
theorem or_validator_spec (cs cs1 cs2 : List Validator) (c : Validator) (v : Json) :
    ((∀ x ∈ cs1, (validate x v).success = false) → (validate c v).success = true →
      validate (Validator.orV (cs1 ++ c :: cs2)) v = ValidationResult.ok) ∧
    ((∀ x ∈ cs, (validate x v).success = false) →
      validate (Validator.orV cs) v =
        ValidationResult.fail
          ("None matched. Errors: " ++
            joinSemi (cs.map (fun x => (validate x v).error_message))) "") ∧
    (validate (Validator.orV [Validator.lam (fun _ => ValidationResult.fail "x" ""),
        Validator.lam (fun _ => ValidationResult.fail "y" "")]) v =
      ValidationResult.fail "None matched. Errors: x; y" "") := by
  refine ⟨?_, ?_, ?_⟩
  · intro h1 hc
    rw [validate_orV]
    exact validateOr_first_success cs1 cs2 c v [] hc h1
  · intro h
    rw [validate_orV]
    simpa using validateOr_all_fail cs v [] h
  · simp [validate, validateOr, joinSemi, ValidationResult.fail, ValidationResult.ok]

/-- Witness for C4: a disjunction whose single child fails with message
x aggregates to the expected message. -/
theorem or_validator_spec_witness :
    validate (Validator.orV [Validator.lam (fun _ => ValidationResult.fail "x" "")]) Json.null =
      ValidationResult.fail "None matched. Errors: x" "" := by
  have h :=
    (or_validator_spec [Validator.lam (fun _ => ValidationResult.fail "x" "")] [] []
      (Validator.lam (fun _ => ValidationResult.ok)) Json.null).2.1
      (by intro x hx; simp at hx; subst hx; simp [validate, ValidationResult.fail])
  simpa [validate, joinSemi, ValidationResult.fail] using h

/-- C2: ObjectValidator fails "Not an object" on non-objects; the
required-fields check precedes all per-field evaluation and an absent
required field yields the failure "Required field not found"; each
(field, child) pair is evaluated only when the field is present
(absence of a non-required field is never a failure) and a child
failure is returned with the field name prepended; the nested schema
with field user containing field name as non-empty-string, validated
against a document where name is the empty string, fails with path
user.name. -/
theorem object_validator_spec (sch rest : List (String × Validator)) (req : List String)
    (f : String) (c : Validator) (v : Json) :
    (v.is_object = false →
      validate (Validator.objectV sch req) v = ValidationResult.fail "Not an object" "") ∧
    (v.is_object = true → (∃ r ∈ req, v.contains r = false) →
      validate (Validator.objectV sch req) v =
        ValidationResult.fail "Required field not found" "") ∧
    (v.is_object = true → (∀ r ∈ req, v.contains r = true) →
      ((v.contains f = false →
        validate (Validator.objectV ((f, c) :: rest) req) v =
          validate (Validator.objectV rest req) v) ∧
       (v.contains f = true → (validate c (v.atKey f)).success = false →
        validate (Validator.objectV ((f, c) :: rest) req) v =
          (validate c (v.atKey f)).prepend_path f) ∧
       (v.contains f = true → (validate c (v.atKey f)).success = true →
        validate (Validator.objectV ((f, c) :: rest) req) v =
          validate (Validator.objectV rest req) v))) ∧
    (v.is_object = true →
      ((validate (Validator.objectV sch req) v).success = true ↔
        (∀ r ∈ req, v.contains r = true) ∧
        ∀ p ∈ sch, v.contains p.1 = true → (validate p.2 (v.atKey p.1)).success = true)) ∧
    (validate
        (Validator.objectV [("user", Validator.objectV [("name", make_non_empty_string)] [])] [])
        (Json.obj [("user", Json.obj [("name", Json.str "")])]) =
      ValidationResult.fail "Empty string" "user.name") := by
  refine ⟨?_, ?_, ?_, ?_, ?_⟩
  · intro h; exact objectV_not_object sch req v h
  · intro hobj h; exact objectV_missing_required sch req v hobj h
  · intro hobj hreq
    refine ⟨?_, ?_, ?_⟩
    · intro hf
      rw [objectV_all_required _ req v hobj hreq, objectV_all_required _ req v hobj hreq]
      simp [validateObjFields, hf]
    · intro hf hr
      rw [objectV_all_required _ req v hobj hreq]
      simp [validateObjFields, hf, hr]
    · intro hf hr
      rw [objectV_all_required _ req v hobj hreq, objectV_all_required _ req v hobj hreq]
      simp [validateObjFields, hf, hr]
  · intro hobj
    by_cases hreq : ∀ r ∈ req, v.contains r = true
    · rw [objectV_all_required sch req v hobj hreq, validateObjFields_success_iff]
      exact ⟨fun h => ⟨hreq, h⟩, fun h => h.2⟩
    · have hex : ∃ r ∈ req, v.contains r = false := by
        push_neg at hreq
        obtain ⟨r, hr, hc⟩ := hreq
        exact ⟨r, hr, by simpa using hc⟩
      rw [objectV_missing_required sch req v hobj hex]
      constructor
      · intro h; simp [ValidationResult.fail] at h
      · intro h
        push_neg at hreq
        obtain ⟨r, hr, hc⟩ := hreq
        exact absurd (h.1 r hr) hc
  · simp [validate, validateObjFields, checkRequired, make_non_empty_string,
      Json.is_object, Json.contains, Json.atKey, Json.is_string, Json.getStr,
      ValidationResult.ok, ValidationResult.fail, ValidationResult.prepend_path]

/-- Witness for C2 at a non-object value. -/
theorem object_validator_spec_witness :
    validate (Validator.objectV [] []) Json.null = ValidationResult.fail "Not an object" "" :=
  (object_validator_spec [] [] [] "f" make_is_string Json.null).1 rfl

/-- C7: ArrayValidator fails "Not an array" on non-arrays, then the
minimum-bound check, then the maximum-bound check, then evaluates the
element rule in index order and returns the first element failure with
the bracketed zero-based index prepended; success exactly when the
bounds hold and every element passes; the min-integer-0 element rule on
the array 1, 2, -1 fails with path [2]. -/
theorem array_validator_spec (e : Validator) (mn mx : Option Nat) (v : Json)
    (elems es1 es2 : List Json) (x : Json) :
    (v.is_array = false →
      validate (Validator.arrayV e mn mx) v = ValidationResult.fail "Not an array" "") ∧
    (∀ m, mn = some m → elems.length < m →
      validate (Validator.arrayV e mn mx) (Json.arr elems) =
        ValidationResult.fail ("Array size < " ++ toString m) "") ∧
    ((∀ m, mn = some m → ¬elems.length < m) → ∀ M, mx = some M → elems.length > M →
      validate (Validator.arrayV e mn mx) (Json.arr elems) =
        ValidationResult.fail ("Array size > " ++ toString M) "") ∧
    ((∀ m, mn = some m → ¬(es1 ++ x :: es2).length < m) →
     (∀ M, mx = some M → ¬(es1 ++ x :: es2).length > M) →
     (∀ y ∈ es1, (validate e y).success = true) → (validate e x).success = false →
      validate (Validator.arrayV e mn mx) (Json.arr (es1 ++ x :: es2)) =
        (validate e x).prepend_path ("[" ++ toString es1.length ++ "]")) ∧
    ((validate (Validator.arrayV e mn mx) (Json.arr elems)).success = true ↔
      (∀ m, mn = some m → ¬elems.length < m) ∧ (∀ M, mx = some M → ¬elems.length > M) ∧
      ∀ y ∈ elems, (validate e y).success = true) ∧
    (validate (Validator.arrayV (make_min_integer 0) none none)
        (Json.arr [Json.int 1, Json.int 2, Json.int (-1)]) =
      ValidationResult.fail "Integer < 0" "[2]") := by
  refine ⟨?_, ?_, ?_, ?_, ?_, ?_⟩
  · intro h; exact arrayV_not_array e mn mx v h
  · intro m hm hlt; subst hm; exact arrayV_min_fail e mx elems m hlt
  · intro hmn M hM hgt; exact arrayV_max_fail e mn mx elems M hmn hM hgt
  · intro hmn hmx h1 hx
    rw [arrayV_bounds_ok e mn mx _ hmn hmx,
      validateElems_first_fail e es1 es2 x 0 hx h1]
    simp
  · by_cases hmn : ∀ m, mn = some m → ¬elems.length < m
    · by_cases hmx : ∀ M, mx = some M → ¬elems.length > M
      · rw [arrayV_bounds_ok e mn mx elems hmn hmx, validateElems_success_iff]
        exact ⟨fun h => ⟨hmn, hmx, h⟩, fun h => h.2.2⟩
      · push_neg at hmx
        obtain ⟨M, hM, hgt⟩ := hmx
        rw [arrayV_max_fail e mn mx elems M hmn hM hgt]
        constructor
        · intro h; simp [ValidationResult.fail] at h
        · rintro ⟨-, h2, -⟩; exact absurd hgt (h2 M hM)
    · push_neg at hmn
      obtain ⟨m, hm, hlt⟩ := hmn
      subst hm
      rw [arrayV_min_fail e mx elems m hlt]
      constructor
      · intro h; simp [ValidationResult.fail] at h
      · rintro ⟨h1, -, -⟩; exact absurd hlt (h1 m rfl)
  · simp [validate, validateElems, minSizeFail, maxSizeFail, make_min_integer, toInt32,
      Json.is_number_integer, Json.getInt,
      ValidationResult.ok, ValidationResult.fail, ValidationResult.prepend_path]
    decide

/-- Witness for C7 at a non-array value. -/
theorem array_validator_spec_witness :
    validate (Validator.arrayV make_is_string none none) Json.null =
      ValidationResult.fail "Not an array" "" :=
  (array_validator_spec make_is_string none none Json.null [] [] [] Json.null).1 rfl

/-- C1: schema validate fails "Root is not an object" with empty path
on non-object documents; on objects each field entry behaves as
follows: a present field is checked by its rule and a rule failure is
returned with the field name prepended, an absent Required field fails
with a message naming the field and empty path, an absent Optional
field is skipped; validate succeeds exactly when no field triggers a
failure; the schema with required field id validated against the empty
object fails with a message naming id and empty path. -/
theorem schema_validate_spec (s rest : Schema) (name : String) (entry : FieldSchemaEntry)
    (d : Json) :
    (d.is_object = false →
      schemaValidate s d = ValidationResult.fail "Root is not an object" "") ∧
    (d.is_object = true →
      ((d.contains name = true → (validate entry.validator (d.atKey name)).success = false →
        schemaValidate ((name, entry) :: rest) d =
          (validate entry.validator (d.atKey name)).prepend_path name) ∧
       (d.contains name = true → (validate entry.validator (d.atKey name)).success = true →
        schemaValidate ((name, entry) :: rest) d = schemaValidate rest d) ∧
       (d.contains name = false → entry.requirement = FieldRequirement.Required →
        schemaValidate ((name, entry) :: rest) d =
          ValidationResult.fail ("Missing required field \x27" ++ name ++ "\x27") "") ∧
       (d.contains name = false → entry.requirement = FieldRequirement.Optional →
        schemaValidate ((name, entry) :: rest) d = schemaValidate rest d))) ∧
    ((schemaValidate s d).success = true ↔
      d.is_object = true ∧
      ∀ p ∈ s,
        (d.contains p.1 = true → (validate p.2.validator (d.atKey p.1)).success = true) ∧
        (d.contains p.1 = false → p.2.requirement = FieldRequirement.Optional)) ∧
    (schemaValidate
        [("id", ⟨Validator.lam (fun _ => ValidationResult.ok), FieldRequirement.Required⟩)]
        (Json.obj []) =
      ValidationResult.fail "Missing required field \x27id\x27" "") := by
  refine ⟨?_, ?_, ?_, ?_⟩
  · intro h; simp [schemaValidate, h]
  · intro hobj
    refine ⟨?_, ?_, ?_, ?_⟩
    · intro hc hr
      simp [schemaValidate, hobj, schemaValidateFields, hc, hr]
    · intro hc hr
      simp [schemaValidate, hobj, schemaValidateFields, hc, hr]
    · intro hc hreq
      simp [schemaValidate, hobj, schemaValidateFields, hc, hreq]
    · intro hc hreq
      simp [schemaValidate, hobj, schemaValidateFields, hc, hreq]
  · by_cases hobj : d.is_object = true
    · simp [schemaValidate, hobj, schemaValidateFields_success_iff]
    · have hobj2 : d.is_object = false := by simpa using hobj
      simp [schemaValidate, hobj2, ValidationResult.fail]
  · simp [schemaValidate, schemaValidateFields, Json.is_object, Json.contains,
      ValidationResult.fail]

/-- Witness for C1 at a non-object document. -/
theorem schema_validate_spec_witness :
    schemaValidate [] (Json.arr []) = ValidationResult.fail "Root is not an object" "" :=
  (schema_validate_spec [] [] "x" ⟨make_is_string, FieldRequirement.Required⟩ (Json.arr [])).1 rfl

/-- C3 counterexample: field a is first declared required is_string,
then re-declared optional is_integer. The claim predicts that
validation after the second done() uses the second declaration, so the
document with a = 5 (an integer) would validate successfully; the code
inserts with unordered_map emplace, which keeps the first entry, and
validation fails with the first declaration rule "Not a string". -/
theorem builder_redeclare_counterexample :
    validate make_is_integer (Json.int 5) = ValidationResult.ok ∧
    schemaValidate
      (FieldBuilder.done ⟨"a", false, [make_is_integer]⟩
        (FieldBuilder.done ⟨"a", true, [make_is_string]⟩ []))
      (Json.obj [("a", Json.int 5)]) =
      ValidationResult.fail "Not a string" "a" := by
  constructor
  · simp [validate, make_is_integer, Json.is_number_integer, ValidationResult.ok]
  · simp [FieldBuilder.done, add_field_schema, schemaValidate, schemaValidateFields,
      validate, make_is_string, Json.is_object, Json.contains, Json.atKey, Json.is_string,
      ValidationResult.fail, ValidationResult.prepend_path]

/-- C3 amended: done() commits the field into the schema through
emplace, so a field whose name is not yet present is inserted keyed by
its name with the requirement derived from the builder flag, while
re-declaring an already committed field name leaves the schema
unchanged (first write wins, the re-declaration is silently ignored);
no duplicate-field error is raised in either case. -/
theorem builder_first_write_wins (s : Schema) (b : FieldBuilder) :
    (s.any (fun p => p.1 == b.field_name) = true → FieldBuilder.done b s = s) ∧
    (s.any (fun p => p.1 == b.field_name) = false →
      ∃ e : FieldSchemaEntry,
        FieldBuilder.done b s = s ++ [(b.field_name, e)] ∧
          e.requirement =
            (if b.required_ then FieldRequirement.Required else FieldRequirement.Optional)) := by
  obtain ⟨n, r, vs⟩ := b
  constructor
  · intro h
    cases vs with
    | nil => simp [FieldBuilder.done, add_field_schema, h]
    | cons v1 vs1 =>
      cases vs1 with
      | nil => simp [FieldBuilder.done, add_field_schema, h]
      | cons v2 vs2 => simp [FieldBuilder.done, add_field_schema, h]
  · intro h
    cases vs with
    | nil =>
      exact ⟨⟨Validator.lam (fun _ => ValidationResult.ok),
        if r then FieldRequirement.Required else FieldRequirement.Optional⟩,
        by simp [FieldBuilder.done, add_field_schema, h], rfl⟩
    | cons v1 vs1 =>
      cases vs1 with
      | nil =>
        exact ⟨⟨v1, if r then FieldRequirement.Required else FieldRequirement.Optional⟩,
          by simp [FieldBuilder.done, add_field_schema, h], rfl⟩
      | cons v2 vs2 =>
        exact ⟨⟨Validator.andV (v1 :: v2 :: vs2),
          if r then FieldRequirement.Required else FieldRequirement.Optional⟩,
          by simp [FieldBuilder.done, add_field_schema, h], rfl⟩

/-- Witness for the amended C3: re-declaring the already present field
a leaves the schema unchanged. -/
theorem builder_first_write_wins_witness :
    FieldBuilder.done ⟨"a", true, []⟩
      [("a", ⟨make_is_string, FieldRequirement.Required⟩)] =
      [("a", ⟨make_is_string, FieldRequirement.Required⟩)] :=
  (builder_first_write_wins [("a", ⟨make_is_string, FieldRequirement.Required⟩)]
    ⟨"a", true, []⟩).1 (by decide)

/-- C8 counterexample: 4294967295 is a representable document integer
greater than or equal to the bound 0, yet min_integer(0) fails on it:
the value is read through a conversion to 32-bit signed int, which
turns 4294967295 into -1. -/
theorem min_integer_range_counterexample :
    (0 : Int) ≤ 4294967295 ∧
    validate (make_min_integer 0) (Json.int 4294967295) =
      ValidationResult.fail "Integer < 0" "" := by
  refine ⟨by decide, ?_⟩
  simp [validate, make_min_integer, Json.is_number_integer, Json.getInt, toInt32,
    ValidationResult.fail]
  decide

/-- C8 amended: min_integer(n) and max_integer(n) fail on non-integer
values; on an integer value they compare the value converted to 32-bit
signed int (twos-complement truncation, the behaviour of the C++ get
of int) against the bound, failing exactly when the converted value is
below, respectively above, n; the stated greater-or-equal (resp.
less-or-equal) characterization therefore holds for document integers
representable in 32-bit signed int, not across the full range. -/
theorem integer_bounds_spec (n k : Int) (v : Json) :
    (v.is_number_integer = false →
      validate (make_min_integer n) v = ValidationResult.fail "Not an integer" "" ∧
      validate (make_max_integer n) v = ValidationResult.fail "Not an integer" "") ∧
    (validate (make_min_integer n) (Json.int k) =
      if toInt32 k < n then ValidationResult.fail ("Integer < " ++ toString n) ""
      else ValidationResult.ok) ∧
    (validate (make_max_integer n) (Json.int k) =
      if toInt32 k > n then ValidationResult.fail ("Integer > " ++ toString n) ""
      else ValidationResult.ok) ∧
    (-2147483648 ≤ k → k < 2147483648 →
      (((validate (make_min_integer n) (Json.int k)).success = true ↔ n ≤ k) ∧
       ((validate (make_max_integer n) (Json.int k)).success = true ↔ k ≤ n))) := by
  refine ⟨?_, ?_, ?_, ?_⟩
  · intro h
    constructor <;> simp [validate, make_min_integer, make_max_integer, h]
  · simp [validate, make_min_integer, Json.is_number_integer, Json.getInt]
  · simp [validate, make_max_integer, Json.is_number_integer, Json.getInt]
  · intro h1 h2
    have ht := toInt32_eq_self k h1 h2
    constructor
    · by_cases hk : k < n
      · simp [validate, make_min_integer, Json.is_number_integer, Json.getInt, ht, hk,
          ValidationResult.fail]
      · simp [validate, make_min_integer, Json.is_number_integer, Json.getInt, ht, hk,
          ValidationResult.ok]
        omega
    · by_cases hk : n < k
      · simp [validate, make_max_integer, Json.is_number_integer, Json.getInt, ht, hk,
          ValidationResult.fail]
      · simp [validate, make_max_integer, Json.is_number_integer, Json.getInt, ht, hk,
          ValidationResult.ok]
        omega

/-- Witness for the amended C8: min_integer(0) accepts the in-range
integer 5. -/
theorem integer_bounds_spec_witness :
    (validate (make_min_integer 0) (Json.int 5)).success = true := by
  have h := ((integer_bounds_spec 0 5 Json.null).2.2.2 (by decide) (by decide)).1
  exact h.mpr (by decide)

/-- C9: matches_regex fails "Not a string for regex" on non-strings;
when the pattern fails to compile the evaluation returns a validation
failure naming the compile error (construction of the rule never
compiles the pattern, so it cannot crash, and no exception escapes
evaluation); when the pattern compiles the rule fails exactly when the
whole-string match (std regex_match, anchored over the entire subject)
rejects the string. Stated for every regex-engine oracle. -/
theorem regex_rule_spec (O : RegexOracle) (p s e : String) (v : Json) :
    (v.is_string = false →
      validate (make_regex O p) v = ValidationResult.fail "Not a string for regex" "") ∧
    (O.compileError p = some e →
      validate (make_regex O p) (Json.str s) =
        ValidationResult.fail ("Invalid regex: " ++ e) "") ∧
    (O.compileError p = none →
      validate (make_regex O p) (Json.str s) =
        if O.fullMatch p s then ValidationResult.ok
        else ValidationResult.fail ("Does not match regex: " ++ p) "") := by
  refine ⟨?_, ?_, ?_⟩
  · intro h; simp [validate, make_regex, h]
  · intro h; simp [validate, make_regex, Json.is_string, Json.getStr, h]
  · intro h; simp [validate, make_regex, Json.is_string, Json.getStr, h]

/-- Witness for C9 with a concrete oracle whose every pattern compiles:
the pattern ab fully matches the string ab. -/
theorem regex_rule_spec_witness :
    validate (make_regex regexOracleConst "ab") (Json.str "ab") = ValidationResult.ok := by
  have h := (regex_rule_spec regexOracleConst "ab" "ab" "" Json.null).2.2 rfl
  simpa [regexOracleConst] using h

end Beacon
